import Mathlib

/-!
Shallow embedding of `src/main.py` of the color-render-api repository
(color catalog, color resolver, hex parsing, tint engine, rendering
orchestrator), together with theorems settling the frozen claims.

Notes on the embedding:
* Python `str.strip()` / `str.lower()` are modelled character-wise; all
  catalog strings and all inputs relevant to the claims are ASCII, where
  `Char.toLower` agrees with Python's `str.lower`.
* `color_key.replace("-", " ")` has a single-character pattern, so it is
  modelled as a character map.
* Python dict comprehensions (`SW_BY_ID` etc.) let later entries overwrite
  earlier ones; lookup is modelled as a left fold that keeps the last
  matching entry, which has exactly the build-then-lookup semantics.
* Line 220 of `main.py` (`color_key = req.regions[0].color_id`) is
  indented with 7 spaces between blocks of widths 8 and 4.  CPython's
  tokenizer rejects exactly this layout (`IndentationError: unindent does
  not match any outer indentation level`), so the module does not compile
  and can never be imported: `create_rendering` has no executable
  semantics.  The orchestrator claims are settled against an embedding of
  the indentation rule applied to the function's own statement layout
  (`createRenderingIndents`, `firstIndentError`), not against a repaired
  body.  The syntactically well-formed pure functions (`resolve_sw_color`,
  `hex_to_rgb`, `simple_tint`) are embedded as the function definitions
  they are.
-/

namespace ColorRender

/-- Whitespace set of Python `str.strip()` (ASCII part; all strings touched
by the claims are ASCII). -/
def pyIsSpace (c : Char) : Bool :=
  c = ' ' || c = '\t' || c = '\n' || c = '\r' || c = '\x0b' || c = '\x0c'

/-- Python `s.strip()` on the character list. -/
def pyStripList (l : List Char) : List Char :=
  ((l.dropWhile pyIsSpace).reverse.dropWhile pyIsSpace).reverse

/-- Python `s.strip()`. -/
def pyStrip (s : String) : String := ⟨pyStripList s.data⟩

/-- Python `s.lower()` (ASCII case folding; all catalog strings are ASCII). -/
def pyLower (s : String) : String := ⟨s.data.map Char.toLower⟩

/-- Python `s.replace("-", " ")`: the pattern is a single character, so this
is a character map. -/
def pyDashToSpace (s : String) : String :=
  ⟨s.data.map (fun c => if c = '-' then ' ' else c)⟩

/-- A row of `SW_COLOR_TABLE` (`main.py` lines 28-59). -/
structure SWColor where
  id     : String
  code   : String
  name   : String
  hex    : String
  family : String
deriving DecidableEq, Repr

/-- `SW_COLOR_TABLE` (`main.py` lines 28-59), verbatim. -/
def SW_COLOR_TABLE : List SWColor := [
  ⟨"sw-7008", "SW 7008", "Alabaster",        "#EDE6D9", "warm white"⟩,
  ⟨"sw-7004", "SW 7004", "Snowbound",        "#ECEBE7", "cool white"⟩,
  ⟨"sw-7005", "SW 7005", "Pure White",       "#F4F4F0", "neutral white"⟩,
  ⟨"sw-7006", "SW 7006", "Extra White",      "#F3F5F6", "cool white"⟩,
  ⟨"sw-7042", "SW 7042", "Shoji White",      "#E2DED2", "warm white"⟩,
  ⟨"sw-7551", "SW 7551", "Greek Villa",      "#EFE6D8", "warm white"⟩,
  ⟨"sw-7036", "SW 7036", "Accessible Beige", "#C9B8A4", "greige"⟩,
  ⟨"sw-6108", "SW 6108", "Latte",            "#D0BA9B", "beige"⟩,
  ⟨"sw-7030", "SW 7030", "Anew Gray",        "#B7ADA1", "greige"⟩,
  ⟨"sw-7029", "SW 7029", "Agreeable Gray",   "#D1CBC1", "greige"⟩,
  ⟨"sw-7015", "SW 7015", "Repose Gray",      "#C0B7AE", "warm gray"⟩,
  ⟨"sw-7016", "SW 7016", "Mindful Gray",     "#B0AAA0", "warm gray"⟩,
  ⟨"sw-7019", "SW 7019", "Gauntlet Gray",    "#625A54", "dark gray"⟩,
  ⟨"sw-7024", "SW 7024", "Dovetail",         "#8B7D70", "medium gray"⟩,
  ⟨"sw-7674", "SW 7674", "Peppercorn",       "#4A4B4D", "charcoal"⟩,
  ⟨"sw-6258", "SW 6258", "Tricorn Black",    "#2D2C2F", "black"⟩,
  ⟨"sw-7069", "SW 7069", "Iron Ore",         "#434447", "charcoal"⟩,
  ⟨"sw-7048", "SW 7048", "Urbane Bronze",    "#60544D", "brown-gray"⟩,
  ⟨"sw-6244", "SW 6244", "Naval",            "#303B4A", "navy blue"⟩,
  ⟨"sw-6204", "SW 6204", "Sea Salt",         "#CBD4CC", "blue-green"⟩,
  ⟨"sw-6211", "SW 6211", "Rainwashed",       "#C2D4CC", "blue-green"⟩]

/-- Key of the `SW_BY_ID` dict: `c["id"].lower()` (`main.py` line 62). -/
def idKey (c : SWColor) : String := pyLower c.id

/-- Key of the `SW_BY_CODE` dict: `c["code"].lower()` (`main.py` line 63). -/
def codeKey (c : SWColor) : String := pyLower c.code

/-- Key of the `SW_BY_NAME` dict: `c["name"].strip().lower()` (line 64). -/
def nameKey (c : SWColor) : String := pyLower (pyStrip c.name)

/-- Lookup in a dict built by `{keyOf(c): c for c in SW_COLOR_TABLE}`:
a later entry overwrites an earlier one, so the fold keeps the last match. -/
def dictLookup (keyOf : SWColor → String) (k : String) : Option SWColor :=
  SW_COLOR_TABLE.foldl (fun acc c => if keyOf c = k then some c else acc) none

/-- `resolve_sw_color` (`main.py` lines 66-95). -/
def resolve_sw_color (color_key : String) : String :=
  if color_key = "" then "#CCCCCC"
  else
    let ck := pyLower (pyStrip color_key)
    match dictLookup idKey ck with
    | some c => c.hex
    | none =>
      match dictLookup codeKey (pyDashToSpace ck) with
      | some c => c.hex
      | none =>
        match dictLookup nameKey ck with
        | some c => c.hex
        | none => "#CCCCCC"

/-- Value of a single hex digit, as accepted by Python `int(_, 16)`:
code points 48-57 are `0`-`9`, 97-102 are `a`-`f`, 65-70 are `A`-`F`. -/
def hexDigitVal (c : Char) : Option ℕ :=
  let n := c.toNat
  if 48 ≤ n && n ≤ 57 then some (n - 48)
  else if 97 ≤ n && n ≤ 102 then some (n - 87)
  else if 65 ≤ n && n ≤ 70 then some (n - 55)
  else none

/-- One step of hex-digit accumulation. -/
def hexFoldStep (acc : Option ℕ) (c : Char) : Option ℕ :=
  acc.bind fun n => (hexDigitVal c).map (fun d => 16 * n + d)

/-- Value of a nonempty run of hex digits. -/
def hexRunVal (l : List Char) : Option ℕ :=
  l.foldl hexFoldStep (some 0)

/-- Python `int(s, 16)` restricted to the short slices produced by
`hex_to_rgb` (length at most 2): surrounding whitespace is stripped, one
optional sign is accepted, and the remainder must be a nonempty run of hex
digits.  (Python additionally accepts a `0x`/`0X` prefix followed by at
least one digit, and underscores strictly between digits; in at most two
characters neither can occur in an accepted string, and the rejections
agree: `x` and `_` are not hex digits.)  `none` models the `ValueError`. -/
def pyIntHex (l : List Char) : Option ℤ :=
  match pyStripList l with
  | [] => none
  | c :: rest =>
    let signAndDigits : ℤ × List Char :=
      if c = '+' then (1, rest)
      else if c = '-' then (-1, rest)
      else (1, c :: rest)
    match signAndDigits.2 with
    | [] => none
    | ds => (hexRunVal ds).map (fun n => signAndDigits.1 * n)

/-- `hex_to_rgb` (`main.py` lines 186-190).  `hex_str.lstrip("#")` removes
every leading `#`; a 3-character result has each character doubled; the
slices `[0:2]`, `[2:4]`, `[4:6]` are fed to `int(_, 16)`.  `none` models the
`ValueError` escaping the function. -/
def hex_to_rgb (hex_str : String) : Option (ℤ × ℤ × ℤ) :=
  let h0 := hex_str.data.dropWhile (fun c => c = '#')
  let h := if h0.length = 3 then h0.flatMap (fun c => [c, c]) else h0
  match pyIntHex ((h.drop 0).take 2), pyIntHex ((h.drop 2).take 2),
        pyIntHex ((h.drop 4).take 2) with
  | some r, some g, some b => some (r, g, b)
  | _, _, _ => none

/-- An in-memory RGB raster: dimensions plus a pixel map.  This is the
shape `Image.open(...).convert("RGB")` delivers to `Image.blend`. -/
structure Img where
  width  : ℕ
  height : ℕ
  px     : ℕ → ℕ → ℕ × ℕ × ℕ

/-- `Image.new("RGB", base.size, overlay_color)` sampled at any pixel, and
also the shape of a uniform-color source image. -/
def uniformImg (w h : ℕ) (c : ℕ × ℕ × ℕ) : Img := ⟨w, h, fun _ _ => c⟩

/-- One channel of Pillow's `Image.blend(base, overlay, alpha)` with
`alpha = 0.35`: the interpolation loop of `ImagingBlend` computes
`(UINT8)(in1 + alpha * (in2 - in1))`, a truncating cast of the
interpolated value.  Pillow evaluates the expression in single-precision
float; over channel values 0-255 the exact rational value is a multiple of
1/20 away from the nearest integer whenever it is not an integer, while
the accumulated single-precision rounding error is below 2e-5 (and the
value is reproduced exactly when it is an integer), so truncating the
exact rational gives the same byte as Pillow's float evaluation. -/
def blendChannel (c : ℕ) (t : ℤ) : ℕ :=
  (⌊(c : ℚ) + 35 / 100 * ((t : ℚ) - (c : ℚ))⌋).toNat

/-- Pixelwise blend of a base pixel toward the overlay color. -/
def blendPx (p : ℕ × ℕ × ℕ) (t : ℤ × ℤ × ℤ) : ℕ × ℕ × ℕ :=
  (blendChannel p.1 t.1, blendChannel p.2.1 t.2.1, blendChannel p.2.2 t.2.2)

/-- `Image.blend(base, Image.new("RGB", base.size, color), alpha=0.35)`:
dimensions are preserved and every pixel is blended toward `color`. -/
def tintWithColor (base : Img) (t : ℤ × ℤ × ℤ) : Img :=
  ⟨base.width, base.height, fun x y => blendPx (base.px x y) t⟩

/-- `simple_tint` (`main.py` lines 193-200) at the raster level: parse the
hex color, build the solid overlay, blend at `alpha = 0.35`.  `none`
models the `ValueError` raised by `hex_to_rgb`; the `Image.open` of
`input_path` and the `save` call are file-system effects outside this
pure raster-level model. -/
def simple_tint (base : Img) (hex_color : String) : Option Img :=
  (hex_to_rgb hex_color).map (tintWithColor base)

/-- `RegionConfig` (`main.py` lines 126-128). -/
structure RegionConfig where
  region_id : String
  color_id  : String
deriving DecidableEq, Repr

/-- `RenderingRequest` (`main.py` lines 131-134). -/
structure RenderingRequest where
  image_id      : String
  regions       : List RegionConfig
  output_format : String
deriving DecidableEq, Repr

/-- `RenderingJob` (`main.py` lines 137-141). -/
structure RenderingJob where
  id         : String
  status     : String
  output_url : Option String
  config     : RenderingRequest
deriving DecidableEq, Repr

/-- The directories and job index as the spec's data model describes
them.  The frozen program never constructs this state — importing
`main.py` fails, see `createRenderingIndents` — it is used only to state
what the job index would have to satisfy (C9), vacuously of an index
that never holds a record. -/
structure ServerState where
  images  : List String
  renders : List String
  jobs    : List (String × RenderingJob)
deriving DecidableEq, Repr

/-- The expression of `main.py` line 225,
`".jpg" if req.output_format.lower() == "jpg" else ".png"`, read off the
(never-compiled) body of `create_rendering`. -/
def extOf (output_format : String) : String :=
  if pyLower output_format = "jpg" then ".jpg" else ".png"

/-- CPython's tokenizer tracks indentation with a stack of open block
widths (Language Reference 2.1.8): a logical line narrower than the top
of the stack pops entries until a matching width is found; if none
matches, the file is rejected with `IndentationError: unindent does not
match any outer indentation level`. -/
def popTo (stack : List ℕ) (w : ℕ) : Option (List ℕ) :=
  match stack with
  | [] => none
  | t :: rest =>
    if t = w then some (t :: rest)
    else if w < t then popTo rest w
    else none

/-- Process one logical line of indentation `w`: a deeper line pushes a
new block, any other must dedent to an enclosing level. -/
def indentStep (stack : List ℕ) (w : ℕ) : Option (List ℕ) :=
  match stack with
  | [] => none
  | t :: rest => if t < w then some (w :: t :: rest) else popTo (t :: rest) w

/-- The physical line number of the first logical line at which the
indentation check fails, if any. -/
def firstIndentError : List ℕ → List (ℕ × ℕ) → Option ℕ
  | _, [] => none
  | stack, (ln, w) :: ws =>
    match indentStep stack w with
    | none => some ln
    | some s => firstIndentError s ws

/-- The logical lines of `create_rendering` (`main.py` lines 203-220) as
(physical line, leading spaces): the decorator (203) and the `def` header
(204, joined with its parenthesized parameter list through line 207) at
width 0; the body statements of lines 210-217 at widths 4 and 8; and
line 220 (`color_key = req.regions[0].color_id`), indented with 7
spaces.  Blank lines (215, 218) and comment-only lines (208, 209, 219)
produce no indentation tokens, and the tokenizer stops at the first
error, so later physical lines are never tokenized. -/
def createRenderingIndents : List (ℕ × ℕ) :=
  [(203, 0), (204, 0), (210, 4), (211, 4), (212, 8), (213, 4), (214, 4),
   (216, 4), (217, 8), (220, 7)]

/-- Shape of a single binding of the job index: the record is indexed
under its own id, is `completed`, and its `output_url` is the renderings
path derived from its id and the extension chosen from its own config. -/
def jobShape (p : String × RenderingJob) : Prop :=
  p.2.id = p.1 ∧ p.2.status = "completed" ∧
    p.2.output_url =
      some ("/files/renderings/" ++ p.1 ++ extOf p.2.config.output_format)

/-- The job-index invariant of the spec: every binding well-shaped, and
distinct bindings have distinct ids and distinct output urls. -/
def JobIndexInv (st : ServerState) : Prop :=
  (∀ p ∈ st.jobs, jobShape p) ∧
    st.jobs.Pairwise (fun p q => p.1 ≠ q.1 ∧ p.2.output_url ≠ q.2.output_url)

/-- Spec-side notion for C4 (from the spec's words): a valid 3- or 6-digit
hex string after stripping one leading `#`. -/
def isValidHex36 (s : String) : Bool :=
  let t := match s.data with
           | c :: r => if c = '#' then r else c :: r
           | [] => []
  (t.length == 3 || t.length == 6) && t.all (fun c => (hexDigitVal c).isSome)

/-- Spec-side notion for C1 (from the spec's words): the channel value
`round(0.65 * c + 0.35 * t)`, rounded to the nearest integer. -/
def specRoundChannel (c t : ℕ) : ℤ :=
  round ((65 / 100 : ℚ) * c + (35 / 100 : ℚ) * t)

/-- `'#'` followed by exactly six hexadecimal digits (for C10). -/
def isHexColorString (s : String) : Bool :=
  match s.data with
  | '#' :: r => r.length == 6 && r.all (fun c => (hexDigitVal c).isSome)
  | _ => false

/-- For C3: the input matches no catalog id, no code after replacing
hyphens by spaces, and no name, under the resolver's normalization. -/
def NoCatalogMatch (s : String) : Prop :=
  ∀ c ∈ SW_COLOR_TABLE,
    pyLower (pyStrip s) ≠ idKey c ∧
    pyDashToSpace (pyLower (pyStrip s)) ≠ codeKey c ∧
    pyLower (pyStrip s) ≠ nameKey c

/-!
## Helper lemmas
-/

example : resolve_sw_color "sw-7008" = "#EDE6D9" := by decide
example : resolve_sw_color "SW 7008" = "#EDE6D9" := by decide
example : resolve_sw_color " alabaster " = "#EDE6D9" := by decide
example : resolve_sw_color "" = "#CCCCCC" := by decide
example : resolve_sw_color "zzz" = "#CCCCCC" := by decide
example : hex_to_rgb "#EDE6D9" = some (237, 230, 217) := by decide
example : hex_to_rgb "abc" = some (170, 187, 204) := by decide
example : hex_to_rgb "12345" = some (18, 52, 5) := by decide
example : hex_to_rgb "xyz" = none := by decide
example : hex_to_rgb "#12" = none := by decide
example : hex_to_rgb "" = none := by decide

/-- The blend channel as exact integer arithmetic: scale the interpolation
by the denominator 100 of `alpha` and floor-divide. -/
theorem blendChannel_eq_div (c : ℕ) (t : ℤ) :
    blendChannel c t = ((100 * (c : ℤ) + 35 * (t - (c : ℤ))) / 100).toNat := by
  unfold blendChannel
  congr 1
  have h : (c : ℚ) + 35 / 100 * ((t : ℚ) - (c : ℚ))
      = ((100 * (c : ℤ) + 35 * (t - (c : ℤ)) : ℤ) : ℚ) / ((100 : ℕ) : ℚ) := by
    push_cast
    ring
  rw [h, Rat.floor_intCast_div_natCast]
  norm_num

/-- On a natural (0-255) target channel the blend is the natural-number
floor of `0.65 * c + 0.35 * t`. -/
theorem blendChannel_natCast (c t : ℕ) :
    blendChannel c (t : ℤ) = (13 * c + 7 * t) / 20 := by
  rw [blendChannel_eq_div]
  have h : 100 * (c : ℤ) + 35 * ((t : ℤ) - (c : ℤ))
      = ((5 * (13 * c + 7 * t) : ℕ) : ℤ) := by
    push_cast
    ring
  have h100 : (100 : ℤ) = ((5 * 20 : ℕ) : ℤ) := by norm_num
  rw [h, h100, ← Int.natCast_div, Int.toNat_natCast,
    Nat.mul_div_mul_left _ _ (by norm_num)]

example : blendChannel 255 0 = 165 := by rw [blendChannel_eq_div]; decide
example : blendChannel 255 98 = 200 := by rw [blendChannel_eq_div]; decide
example : blendChannel 0 255 = 89 := by rw [blendChannel_eq_div]; decide

/-- A dict-style left fold that returns `some c` found `c` in the list (or
already had it in the accumulator), and `c`'s key is the one looked up. -/
theorem foldl_lookup_mem (keyOf : SWColor → String) (k : String) :
    ∀ (l : List SWColor) (acc : Option SWColor) (c : SWColor),
      l.foldl (fun a x => if keyOf x = k then some x else a) acc = some c →
      acc = some c ∨ (c ∈ l ∧ keyOf c = k) := by
  intro l
  induction l with
  | nil => intro acc c h; exact Or.inl h
  | cons x xs ih =>
    intro acc c h
    rcases ih _ c h with hacc | ⟨hmem, hkey⟩
    · have hacc' : (if keyOf x = k then some x else acc) = some c := hacc
      by_cases hx : keyOf x = k
      · rw [if_pos hx] at hacc'
        cases hacc'
        exact Or.inr ⟨List.mem_cons_self .., hx⟩
      · rw [if_neg hx] at hacc'
        exact Or.inl hacc'
    · exact Or.inr ⟨List.mem_cons_of_mem _ hmem, hkey⟩

/-- A dict-style left fold over entries none of which has the looked-up
key leaves the accumulator alone. -/
theorem foldl_lookup_none (keyOf : SWColor → String) (k : String) :
    ∀ (l : List SWColor) (acc : Option SWColor),
      (∀ c ∈ l, keyOf c ≠ k) →
      l.foldl (fun a x => if keyOf x = k then some x else a) acc = acc := by
  intro l
  induction l with
  | nil => intro acc _; rfl
  | cons x xs ih =>
    intro acc hne
    have hx : keyOf x ≠ k := hne x (List.mem_cons_self ..)
    simpa [if_neg hx] using
      ih _ (fun c hc => hne c (List.mem_cons_of_mem _ hc))

/-- A successful dict lookup returns a catalog entry carrying the key. -/
theorem dictLookup_mem {keyOf : SWColor → String} {k : String} {c : SWColor}
    (h : dictLookup keyOf k = some c) :
    c ∈ SW_COLOR_TABLE ∧ keyOf c = k := by
  rcases foldl_lookup_mem keyOf k SW_COLOR_TABLE none c h with hacc | hok
  · cases hacc
  · exact hok

/-- If no catalog entry carries the key, the dict lookup misses. -/
theorem dictLookup_eq_none {keyOf : SWColor → String} {k : String}
    (h : ∀ c ∈ SW_COLOR_TABLE, keyOf c ≠ k) : dictLookup keyOf k = none :=
  foldl_lookup_none keyOf k SW_COLOR_TABLE none h

/-- Distinct catalog entries have distinct normalized codes. -/
theorem codeKey_inj : ∀ c ∈ SW_COLOR_TABLE, ∀ d ∈ SW_COLOR_TABLE,
    codeKey c = codeKey d → c = d := by decide

/-- No normalized id collides with a normalized name. -/
theorem idKey_ne_nameKey : ∀ c ∈ SW_COLOR_TABLE, ∀ d ∈ SW_COLOR_TABLE,
    idKey c ≠ nameKey d := by decide

/-- No normalized code collides with a dash-normalized name. -/
theorem codeKey_ne_dashNameKey : ∀ c ∈ SW_COLOR_TABLE, ∀ d ∈ SW_COLOR_TABLE,
    codeKey c ≠ pyDashToSpace (nameKey d) := by decide

/-- Replacing the hyphen of a normalized id by a space gives exactly the
entry's normalized code. -/
theorem dash_idKey_eq_codeKey : ∀ c ∈ SW_COLOR_TABLE,
    pyDashToSpace (idKey c) = codeKey c := by decide

/-- Each entry is found under its own normalized code. -/
theorem codeLookup_self : ∀ c ∈ SW_COLOR_TABLE,
    dictLookup codeKey (codeKey c) = some c := by decide

/-- Each entry is found under its own normalized name. -/
theorem nameLookup_self : ∀ c ∈ SW_COLOR_TABLE,
    dictLookup nameKey (nameKey c) = some c := by decide

/-- Resolving an entry's literal id yields its hex value. -/
theorem resolve_id_hex : ∀ c ∈ SW_COLOR_TABLE,
    resolve_sw_color c.id = c.hex := by decide

/-- No catalog code normalizes to the empty string. -/
theorem codeKey_ne_empty : ∀ c ∈ SW_COLOR_TABLE, codeKey c ≠ "" := by decide

/-- No catalog name normalizes to the empty string. -/
theorem nameKey_ne_empty : ∀ c ∈ SW_COLOR_TABLE, nameKey c ≠ "" := by decide

/-- The resolver on a non-empty key: the three dict probes in order. -/
theorem resolve_def (s : String) (h : s ≠ "") :
    resolve_sw_color s =
      match dictLookup idKey (pyLower (pyStrip s)) with
      | some c => c.hex
      | none =>
        match dictLookup codeKey (pyDashToSpace (pyLower (pyStrip s))) with
        | some c => c.hex
        | none =>
          match dictLookup nameKey (pyLower (pyStrip s)) with
          | some c => c.hex
          | none => "#CCCCCC" := by
  unfold resolve_sw_color
  rw [if_neg h]

/-- Every resolver output is the fallback or a catalog hex value. -/
theorem resolve_mem_outputs (s : String) :
    resolve_sw_color s ∈ "#CCCCCC" :: SW_COLOR_TABLE.map SWColor.hex := by
  by_cases h : s = ""
  · subst h
    exact List.mem_cons_self ..
  · rw [resolve_def s h]
    cases hid : dictLookup idKey (pyLower (pyStrip s)) with
    | some c =>
      exact List.mem_cons_of_mem _ (List.mem_map_of_mem _ (dictLookup_mem hid).1)
    | none =>
      cases hcode : dictLookup codeKey (pyDashToSpace (pyLower (pyStrip s))) with
      | some c =>
        exact List.mem_cons_of_mem _ (List.mem_map_of_mem _ (dictLookup_mem hcode).1)
      | none =>
        cases hname : dictLookup nameKey (pyLower (pyStrip s)) with
        | some c =>
          exact List.mem_cons_of_mem _ (List.mem_map_of_mem _ (dictLookup_mem hname).1)
        | none =>
          exact List.mem_cons_self ..

/-- Every possible resolver output is `#` plus six hex digits and is
parsed by `hex_to_rgb`. -/
theorem outputs_hex_ok : ∀ h ∈ "#CCCCCC" :: SW_COLOR_TABLE.map SWColor.hex,
    isHexColorString h = true ∧ (hex_to_rgb h).isSome = true := by decide

/-!
## Claims
-/

/-- C2: for every catalog entry, resolving its canonical id, any spelling
of its display code whose dash-to-space, trimmed, lowercased form equals
the entry's normalized code (so `"SW 7008"`, `"sw-7008"`, with any letter
case and surrounding whitespace), and any letter-case/whitespace variant
of its display name all return that entry's hex value; the probes run in
the order id, code, name, first match wins (the proofs below case on the
earlier probes in exactly that order). -/
theorem c2_resolver_three_forms :
    ∀ e ∈ SW_COLOR_TABLE,
      resolve_sw_color e.id = e.hex ∧
      (∀ s : String, pyDashToSpace (pyLower (pyStrip s)) = codeKey e →
        resolve_sw_color s = e.hex) ∧
      (∀ s : String, pyLower (pyStrip s) = nameKey e →
        resolve_sw_color s = e.hex) := by
  intro e he
  refine ⟨resolve_id_hex e he, ?_, ?_⟩
  · intro s hs
    have hne : s ≠ "" := by
      intro h
      subst h
      have h0 : pyDashToSpace (pyLower (pyStrip "")) = "" := by decide
      rw [h0] at hs
      exact codeKey_ne_empty e he hs.symm
    rw [resolve_def s hne]
    cases hid : dictLookup idKey (pyLower (pyStrip s)) with
    | some c =>
      obtain ⟨hc, hkey⟩ := dictLookup_mem hid
      have h1 : codeKey c = codeKey e := by
        rw [← dash_idKey_eq_codeKey c hc, hkey, hs]
      have h2 : c = e := codeKey_inj c hc e he h1
      rw [h2]
    | none =>
      dsimp only
      rw [hs, codeLookup_self e he]
  · intro s hs
    have hne : s ≠ "" := by
      intro h
      subst h
      have h0 : pyLower (pyStrip "") = "" := by decide
      rw [h0] at hs
      exact nameKey_ne_empty e he hs.symm
    rw [resolve_def s hne]
    cases hid : dictLookup idKey (pyLower (pyStrip s)) with
    | some c =>
      obtain ⟨hc, hkey⟩ := dictLookup_mem hid
      exact absurd (hkey.trans hs) (idKey_ne_nameKey c hc e he)
    | none =>
      dsimp only
      cases hcode : dictLookup codeKey (pyDashToSpace (pyLower (pyStrip s))) with
      | some c =>
        obtain ⟨hc, hkey⟩ := dictLookup_mem hcode
        rw [hs] at hkey
        exact absurd hkey (codeKey_ne_dashNameKey c hc e he)
      | none =>
        dsimp only
        rw [hs, nameLookup_self e he]

/-- Witness for C2 at the Alabaster entry: id, code (spaced, extra
whitespace), and name (upper case) forms all give `#EDE6D9`. -/
theorem c2_witness :
    (⟨"sw-7008", "SW 7008", "Alabaster", "#EDE6D9", "warm white"⟩ : SWColor)
        ∈ SW_COLOR_TABLE ∧
      resolve_sw_color "sw-7008" = "#EDE6D9" ∧
      resolve_sw_color " SW 7008 " = "#EDE6D9" ∧
      resolve_sw_color "ALABASTER" = "#EDE6D9" := by
  have he : (⟨"sw-7008", "SW 7008", "Alabaster", "#EDE6D9", "warm white"⟩ :
      SWColor) ∈ SW_COLOR_TABLE := by decide
  obtain ⟨h1, h2, h3⟩ := c2_resolver_three_forms _ he
  exact ⟨he, h1, h2 " SW 7008 " (by decide), h3 "ALABASTER" (by decide)⟩

/-- C3: an empty input, or one that after trimming and lowercasing matches
no catalog id, no code after replacing hyphens by spaces, and no name,
resolves to exactly `#CCCCCC` (and the resolver is a total function, so it
never fails). -/
theorem c3_unknown_key_falls_back :
    ∀ s : String, (s = "" ∨ NoCatalogMatch s) →
      resolve_sw_color s = "#CCCCCC" := by
  intro s hs
  rcases hs with rfl | hm
  · decide
  · by_cases hne : s = ""
    · subst hne; decide
    · rw [resolve_def s hne]
      have hid : dictLookup idKey (pyLower (pyStrip s)) = none :=
        dictLookup_eq_none (fun c hc => ((hm c hc).1).symm)
      have hcode :
          dictLookup codeKey (pyDashToSpace (pyLower (pyStrip s))) = none :=
        dictLookup_eq_none (fun c hc => ((hm c hc).2.1).symm)
      have hname : dictLookup nameKey (pyLower (pyStrip s)) = none :=
        dictLookup_eq_none (fun c hc => ((hm c hc).2.2).symm)
      rw [hid]
      dsimp only
      rw [hcode]
      dsimp only
      rw [hname]

/-- Witness for C3 at the unknown key `"not-a-color"`. -/
theorem c3_witness : resolve_sw_color "not-a-color" = "#CCCCCC" :=
  c3_unknown_key_falls_back "not-a-color"
    (Or.inr (by unfold NoCatalogMatch; decide))

/-- A whitespace character is not a hex digit. -/
theorem pyIsSpace_hexDigitVal (c : Char) (h : pyIsSpace c = true) :
    hexDigitVal c = none := by
  unfold pyIsSpace at h
  simp only [Bool.or_eq_true, decide_eq_true_eq] at h
  rcases h with ((((h | h) | h) | h) | h) | h <;> subst h <;> rfl

/-- A hex digit is not whitespace. -/
theorem hexDigit_not_space (c : Char) (h : (hexDigitVal c).isSome = true) :
    pyIsSpace c = false := by
  cases hsp : pyIsSpace c with
  | false => rfl
  | true => rw [pyIsSpace_hexDigitVal c hsp] at h; exact absurd h (by decide)

/-- `dropWhile` is the identity when no element satisfies the predicate. -/
theorem dropWhile_eq_self_of {p : Char → Bool} {l : List Char}
    (h : ∀ c ∈ l, p c = false) : l.dropWhile p = l := by
  cases l with
  | nil => rfl
  | cons a l =>
    rw [List.dropWhile_cons, h a (List.mem_cons_self ..)]
    rfl

/-- `pyStripList` is the identity on whitespace-free lists. -/
theorem pyStripList_eq_self {l : List Char}
    (h : ∀ c ∈ l, pyIsSpace c = false) : pyStripList l = l := by
  unfold pyStripList
  rw [dropWhile_eq_self_of h,
    dropWhile_eq_self_of (fun c hc => h c (List.mem_reverse.mp hc)),
    List.reverse_reverse]

/-- Folding hex digits over a `some` accumulator stays `some`. -/
theorem hexFold_isSome :
    ∀ l : List Char, (∀ c ∈ l, (hexDigitVal c).isSome = true) → ∀ n : ℕ,
      (l.foldl hexFoldStep (some n)).isSome = true := by
  intro l
  induction l with
  | nil => intro _ n; rfl
  | cons a l ih =>
    intro h n
    obtain ⟨da, hda⟩ :=
      Option.isSome_iff_exists.mp (h a (List.mem_cons_self ..))
    rw [List.foldl_cons]
    have hstep : hexFoldStep (some n) a = some (16 * n + da) := by
      unfold hexFoldStep
      rw [Option.some_bind, hda]
      rfl
    rw [hstep]
    exact ih (fun c hc => h c (List.mem_cons_of_mem _ hc)) _

/-- `hexRunVal` succeeds on a list of hex digits. -/
theorem hexRunVal_isSome (l : List Char)
    (h : ∀ c ∈ l, (hexDigitVal c).isSome = true) :
    (hexRunVal l).isSome = true :=
  hexFold_isSome l h 0

/-- `int(_, 16)` succeeds on a two-character slice of hex digits. -/
theorem pyIntHex_pair (a b : Char) (ha : (hexDigitVal a).isSome = true)
    (hb : (hexDigitVal b).isSome = true) : (pyIntHex [a, b]).isSome = true := by
  have hstrip : pyStripList [a, b] = [a, b] := pyStripList_eq_self (by
    intro c hc
    rcases List.mem_cons.mp hc with rfl | hc
    · exact hexDigit_not_space c ha
    · rcases List.mem_singleton.mp hc with rfl
      exact hexDigit_not_space c hb)
  have ha1 : a ≠ '+' := fun hc => absurd ha (by rw [hc]; decide)
  have ha2 : a ≠ '-' := fun hc => absurd ha (by rw [hc]; decide)
  unfold pyIntHex
  rw [hstrip]
  dsimp only
  rw [if_neg ha1, if_neg ha2]
  dsimp only
  have hrun : (hexRunVal [a, b]).isSome = true :=
    hexRunVal_isSome [a, b] (by
      intro c hc
      rcases List.mem_cons.mp hc with rfl | hc
      · exact ha
      · rcases List.mem_singleton.mp hc with rfl
        exact hb)
  obtain ⟨v, hv⟩ := Option.isSome_iff_exists.mp hrun
  rw [hv]
  rfl

/-- A hex digit is not the hash character. -/
theorem hexDigit_ne_hash (c : Char) (h : (hexDigitVal c).isSome = true) :
    c ≠ '#' :=
  fun hc => absurd h (by rw [hc]; decide)

/-- A list of three elements is an explicit triple. -/
theorem length_three_exists {l : List Char} (h : l.length = 3) :
    ∃ a b c, l = [a, b, c] := by
  rcases l with _ | ⟨a, _ | ⟨b, _ | ⟨c, rest⟩⟩⟩ <;> simp_all

/-- A list of six elements is an explicit sextuple. -/
theorem length_six_exists {l : List Char} (h : l.length = 6) :
    ∃ a b c d e f, l = [a, b, c, d, e, f] := by
  rcases l with _ | ⟨a, _ | ⟨b, _ | ⟨c, _ | ⟨d, _ | ⟨e, _ | ⟨f, rest⟩⟩⟩⟩⟩⟩ <;>
    simp_all

/-- C4 (corrected): `hex_to_rgb` succeeds on every valid 3- or 6-digit hex
string (after a leading `#`); failures therefore only occur on invalid
strings — but not on all of them, see the counterexample. -/
theorem c4_valid_hex36_parses :
    ∀ s : String, isValidHex36 s = true → (hex_to_rgb s).isSome = true := by
  intro s hv
  unfold isValidHex36 at hv
  rcases hsd : s.data with _ | ⟨c, r⟩
  · rw [hsd] at hv
    exact absurd hv (by decide)
  · rw [hsd] at hv
    dsimp only at hv
    unfold hex_to_rgb
    rw [hsd]
    dsimp only
    by_cases hc : c = '#'
    · rw [if_pos hc] at hv
      subst hc
      simp only [Bool.and_eq_true, Bool.or_eq_true, beq_iff_eq,
        List.all_eq_true] at hv
      obtain ⟨hlen, hall⟩ := hv
      have hdrop : ('#' :: r).dropWhile (fun x => decide (x = '#')) = r := by
        rw [List.dropWhile_cons, if_pos (by decide)]
        exact dropWhile_eq_self_of (fun x hx =>
          decide_eq_false (hexDigit_ne_hash x (hall x hx)))
      rw [hdrop]
      rcases hlen with h3 | h6
      · obtain ⟨x, y, z, rfl⟩ := length_three_exists h3
        rw [if_pos (show ([x, y, z] : List Char).length = 3 from rfl)]
        have hx := hall x (by simp)
        have hy := hall y (by simp)
        have hz := hall z (by simp)
        rw [show (([x, y, z].flatMap (fun c => [c, c])).drop 0).take 2
              = [x, x] from rfl,
          show (([x, y, z].flatMap (fun c => [c, c])).drop 2).take 2
              = [y, y] from rfl,
          show (([x, y, z].flatMap (fun c => [c, c])).drop 4).take 2
              = [z, z] from rfl]
        obtain ⟨v1, hv1⟩ :=
          Option.isSome_iff_exists.mp (pyIntHex_pair x x hx hx)
        obtain ⟨v2, hv2⟩ :=
          Option.isSome_iff_exists.mp (pyIntHex_pair y y hy hy)
        obtain ⟨v3, hv3⟩ :=
          Option.isSome_iff_exists.mp (pyIntHex_pair z z hz hz)
        rw [hv1, hv2, hv3]
        rfl
      · obtain ⟨a, b, c2, d, e, f, rfl⟩ := length_six_exists h6
        rw [if_neg (by simp)]
        have hxa := hall a (by simp)
        have hxb := hall b (by simp)
        have hxc := hall c2 (by simp)
        have hxd := hall d (by simp)
        have hxe := hall e (by simp)
        have hxf := hall f (by simp)
        rw [show (([a, b, c2, d, e, f] : List Char).drop 0).take 2
              = [a, b] from rfl,
          show (([a, b, c2, d, e, f] : List Char).drop 2).take 2
              = [c2, d] from rfl,
          show (([a, b, c2, d, e, f] : List Char).drop 4).take 2
              = [e, f] from rfl]
        obtain ⟨v1, hv1⟩ :=
          Option.isSome_iff_exists.mp (pyIntHex_pair a b hxa hxb)
        obtain ⟨v2, hv2⟩ :=
          Option.isSome_iff_exists.mp (pyIntHex_pair c2 d hxc hxd)
        obtain ⟨v3, hv3⟩ :=
          Option.isSome_iff_exists.mp (pyIntHex_pair e f hxe hxf)
        rw [hv1, hv2, hv3]
        rfl
    · rw [if_neg hc] at hv
      simp only [Bool.and_eq_true, Bool.or_eq_true, beq_iff_eq,
        List.all_eq_true] at hv
      obtain ⟨hlen, hall⟩ := hv
      have hdrop : (c :: r).dropWhile (fun x => decide (x = '#')) = c :: r :=
        dropWhile_eq_self_of (fun x hx =>
          decide_eq_false (hexDigit_ne_hash x (hall x hx)))
      rw [hdrop]
      rcases hlen with h3 | h6
      · obtain ⟨x, y, z, hxyz⟩ := length_three_exists h3
        rw [hxyz] at hall ⊢
        rw [if_pos (show ([x, y, z] : List Char).length = 3 from rfl)]
        have hx := hall x (by simp)
        have hy := hall y (by simp)
        have hz := hall z (by simp)
        rw [show (([x, y, z].flatMap (fun c => [c, c])).drop 0).take 2
              = [x, x] from rfl,
          show (([x, y, z].flatMap (fun c => [c, c])).drop 2).take 2
              = [y, y] from rfl,
          show (([x, y, z].flatMap (fun c => [c, c])).drop 4).take 2
              = [z, z] from rfl]
        obtain ⟨v1, hv1⟩ :=
          Option.isSome_iff_exists.mp (pyIntHex_pair x x hx hx)
        obtain ⟨v2, hv2⟩ :=
          Option.isSome_iff_exists.mp (pyIntHex_pair y y hy hy)
        obtain ⟨v3, hv3⟩ :=
          Option.isSome_iff_exists.mp (pyIntHex_pair z z hz hz)
        rw [hv1, hv2, hv3]
        rfl
      · obtain ⟨a, b, c2, d, e, f, habc⟩ := length_six_exists h6
        rw [habc] at hall ⊢
        rw [if_neg (by simp)]
        have hxa := hall a (by simp)
        have hxb := hall b (by simp)
        have hxc := hall c2 (by simp)
        have hxd := hall d (by simp)
        have hxe := hall e (by simp)
        have hxf := hall f (by simp)
        rw [show (([a, b, c2, d, e, f] : List Char).drop 0).take 2
              = [a, b] from rfl,
          show (([a, b, c2, d, e, f] : List Char).drop 2).take 2
              = [c2, d] from rfl,
          show (([a, b, c2, d, e, f] : List Char).drop 4).take 2
              = [e, f] from rfl]
        obtain ⟨v1, hv1⟩ :=
          Option.isSome_iff_exists.mp (pyIntHex_pair a b hxa hxb)
        obtain ⟨v2, hv2⟩ :=
          Option.isSome_iff_exists.mp (pyIntHex_pair c2 d hxc hxd)
        obtain ⟨v3, hv3⟩ :=
          Option.isSome_iff_exists.mp (pyIntHex_pair e f hxe hxf)
        rw [hv1, hv2, hv3]
        rfl

/-- Counterexample for C4 as stated: `"12345"` is not a valid 3- or
6-digit hex string, yet `hex_to_rgb` does not raise — it returns
`(0x12, 0x34, 0x5)`, because the slice `[4:6]` of a 5-character string is
the single character `"5"`, which `int(_, 16)` accepts. -/
theorem c4_counterexample :
    isValidHex36 "12345" = false ∧ hex_to_rgb "12345" = some (18, 52, 5) := by
  decide

/-- Witness for C4 at the valid 3-digit input `"#1A3"`. -/
theorem c4_witness :
    isValidHex36 "#1A3" = true ∧ (hex_to_rgb "#1A3").isSome = true :=
  ⟨by decide, c4_valid_hex36_parses "#1A3" (by decide)⟩

/-- Counterexample for C1 as stated: tinting a uniform white image toward
`#000000` gives channel value 165 (Pillow truncates the interpolated
value `165.75`), while rounding to the nearest integer as the claim
states would give 166. -/
theorem c1_counterexample :
    ((simple_tint (uniformImg 2 2 (255, 255, 255)) "#000000").map
        (fun out => (out.width, out.height, out.px 0 0))) =
      some (2, 2, (165, 165, 165)) ∧
    specRoundChannel 255 0 = 166 ∧ (165 : ℤ) ≠ 166 := by
  refine ⟨?_, ?_, by decide⟩
  · show some (2, 2, blendPx (255, 255, 255) (0, 0, 0)) =
      some (2, 2, (165, 165, 165))
    have hb : blendPx (255, 255, 255) (0, 0, 0) = (165, 165, 165) := by
      unfold blendPx
      simp only [blendChannel_eq_div]
      decide
    rw [hb]
  · unfold specRoundChannel
    have h : (65 / 100 : ℚ) * ((255 : ℕ) : ℚ) + (35 / 100 : ℚ) * ((0 : ℕ) : ℚ)
        + 1 / 2 = ((665 : ℤ) : ℚ) / ((4 : ℕ) : ℚ) := by
      norm_num
    rw [round_eq, h, Rat.floor_intCast_div_natCast]
    decide

/-- C1 (amended): on a uniform source image of color `C` and a parsed
target `T`, `simple_tint` preserves the dimensions and every pixel equals
`⌊0.65 * C + 0.35 * T⌋` per channel — floor (Pillow's truncating cast),
not round-to-nearest — and each output channel stays in `[0, 255]`. -/
theorem c1_uniform_tint (w h c1 c2 c3 t1 t2 t3 : ℕ) (hex : String)
    (hc1 : c1 ≤ 255) (hc2 : c2 ≤ 255) (hc3 : c3 ≤ 255)
    (ht1 : t1 ≤ 255) (ht2 : t2 ≤ 255) (ht3 : t3 ≤ 255)
    (hhex : hex_to_rgb hex = some ((t1 : ℤ), (t2 : ℤ), (t3 : ℤ))) :
    simple_tint (uniformImg w h (c1, c2, c3)) hex =
      some (uniformImg w h
        ((13 * c1 + 7 * t1) / 20, (13 * c2 + 7 * t2) / 20,
          (13 * c3 + 7 * t3) / 20)) ∧
    (13 * c1 + 7 * t1) / 20 ≤ 255 ∧ (13 * c2 + 7 * t2) / 20 ≤ 255 ∧
      (13 * c3 + 7 * t3) / 20 ≤ 255 := by
  refine ⟨?_, by omega, by omega, by omega⟩
  unfold simple_tint
  rw [hhex]
  show some (tintWithColor (uniformImg w h (c1, c2, c3))
      ((t1 : ℤ), (t2 : ℤ), (t3 : ℤ))) = _
  congr 1
  unfold tintWithColor uniformImg
  congr 1
  funext x y
  show blendPx (c1, c2, c3) ((t1 : ℤ), (t2 : ℤ), (t3 : ℤ)) = _
  unfold blendPx
  dsimp only
  rw [blendChannel_natCast, blendChannel_natCast, blendChannel_natCast]

/-- Witness for C1: a 1×1 uniform image of color `(10, 20, 30)` tinted
toward `#010203`. -/
theorem c1_witness :
    simple_tint (uniformImg 1 1 (10, 20, 30)) "#010203" =
      some (uniformImg 1 1
        ((13 * 10 + 7 * 1) / 20, (13 * 20 + 7 * 2) / 20,
          (13 * 30 + 7 * 3) / 20)) ∧
    (13 * 10 + 7 * 1) / 20 ≤ 255 ∧ (13 * 20 + 7 * 2) / 20 ≤ 255 ∧
      (13 * 30 + 7 * 3) / 20 ≤ 255 :=
  c1_uniform_tint 1 1 10 20 30 1 2 3 "#010203" (by decide) (by decide)
    (by decide) (by decide) (by decide) (by decide) (by decide)

/-!
## Orchestrator claims: the module cannot be imported
-/

/-- An indentation failure on a prefix of the logical lines is a failure
of the whole file, whatever follows. -/
theorem firstIndentError_append (l : List (ℕ × ℕ)) :
    ∀ (stack : List ℕ) (n : ℕ), firstIndentError stack l = some n →
      ∀ ws : List (ℕ × ℕ), firstIndentError stack (l ++ ws) = some n := by
  induction l with
  | nil =>
    intro stack n h ws
    exact absurd h (by simp [firstIndentError])
  | cons p l ih =>
    obtain ⟨ln, w⟩ := p
    intro stack n h ws
    rw [List.cons_append]
    unfold firstIndentError at h ⊢
    cases hs : indentStep stack w with
    | none => rw [hs] at h; exact h
    | some s => rw [hs] at h; exact ih s n h ws

/-- C5 (code bug): the claimed `InvalidRequest` on unsupported output
formats is unobservable: `create_rendering`'s own statement layout is
rejected by the indentation rule at line 220, so `main.py` never
compiles and no request is ever served; and the expression on line 225
maps any non-`"jpg"` value (such as `"bmp"`) to `".png"` and `"jpg"` to
`".jpg"` without any validation, so even the evident intent of the body
performs no format check. -/
theorem c5_format_check_unreachable :
    firstIndentError [0] createRenderingIndents = some 220 ∧
      extOf "bmp" = ".png" ∧ extOf "jpg" = ".jpg" :=
  ⟨by decide, by decide, by decide⟩

/-- C6 (code bug): an empty-regions request is never rejected with
`InvalidRequest`, because the module fails to compile: right after the
`raise` of the empty-regions check (line 217, width 8, stack
`[8, 4, 0]`), line 220's width 7 dedents to no enclosing level. -/
theorem c6_empty_regions_check_unreachable :
    firstIndentError [0] createRenderingIndents = some 220 ∧
      indentStep [8, 4, 0] 7 = none :=
  ⟨by decide, by decide⟩

/-- C7 (code bug): no job record can ever be inserted: the indentation
check fails at line 220 no matter what statements follow, so the
`JOBS[job_id] = job` insert of line 240 — like every other statement of
the module — is never compiled, let alone executed. -/
theorem c7_job_insert_unreachable :
    ∀ ws : List (ℕ × ℕ),
      firstIndentError [0] (createRenderingIndents ++ ws) = some 220 :=
  fun ws =>
    firstIndentError_append createRenderingIndents [0] 220 (by decide) ws

/-- C8 (code bug): the prefix lookup of lines 210-213 is itself
indentation-consistent — with line 220 dropped the check passes — but
Python compiles the module as a whole and the first failure is exactly
line 220, so the lookup never runs and no `NotFound` is ever returned. -/
theorem c8_prefix_lookup_unreachable :
    firstIndentError [0] createRenderingIndents = some 220 ∧
      firstIndentError [0]
        (createRenderingIndents.filter (fun p => p.1 < 220)) = none :=
  ⟨by decide, by decide⟩

/-- C9 (code bug): importing `main.py` fails before even `JOBS = {}`
(line 145) executes, so the program records no job whatsoever; the
claimed shape and uniqueness of job records hold only vacuously, of an
index that never contains a record. -/
theorem c9_job_index_never_populated :
    firstIndentError [0] createRenderingIndents = some 220 ∧
      ∀ imgs rnds : List String, JobIndexInv ⟨imgs, rnds, []⟩ := by
  refine ⟨by decide, ?_⟩
  intro imgs rnds
  exact ⟨fun p hp => absurd hp (List.not_mem_nil p), List.Pairwise.nil⟩

/-- C10 (code bug): the resolver half of the claim is right — every
resolver output is the fallback or a catalog hex, is `#` followed by six
hex digits, and is parsed by `hex_to_rgb` — but the claimed consequence
concerns `hex_to_rgb` being invoked from submit, and `create_rendering`
is a syntax error at line 220: the module never imports, so that
invocation can never take place. -/
theorem c10_resolver_valid_submit_never_runs :
    (∀ s : String,
      resolve_sw_color s ∈ "#CCCCCC" :: SW_COLOR_TABLE.map SWColor.hex ∧
      isHexColorString (resolve_sw_color s) = true ∧
      (hex_to_rgb (resolve_sw_color s)).isSome = true) ∧
    firstIndentError [0] createRenderingIndents = some 220 := by
  refine ⟨?_, by decide⟩
  intro s
  exact ⟨resolve_mem_outputs s, outputs_hex_ok _ (resolve_mem_outputs s)⟩

end ColorRender
